import Mathlib

/-!
Verification of the Smart_SIEM backend (feature extraction, prediction engine,
model version store, trainer promotion, ingestion) against its specification.

The Python sources are shallowly embedded: dict-valued alerts become
association lists over a JSON-like value type, the file system and MongoDB
collections become explicit state, `datetime.now` becomes an explicit `now`
parameter, and fallible operations return `Except`/`Option`.
-/

/-- Decidable equality for `Except` results (used to state how the embedded
operations report success, failure and propagated exceptions). -/
instance {ε α : Type} [DecidableEq ε] [DecidableEq α] :
    DecidableEq (Except ε α) := fun x y =>
  match x, y with
  | Except.ok a, Except.ok b =>
    if h : a = b then isTrue (congrArg Except.ok h)
    else isFalse (fun hc => h (Except.ok.inj hc))
  | Except.error a, Except.error b =>
    if h : a = b then isTrue (congrArg Except.error h)
    else isFalse (fun hc => h (Except.error.inj hc))
  | Except.ok _, Except.error _ => isFalse (fun hc => Except.noConfusion hc)
  | Except.error _, Except.ok _ => isFalse (fun hc => Except.noConfusion hc)

/-- JSON-like value type modelling the Python objects that flow through the
backend (alert payloads, nested dicts, lists of rule groups). -/
inductive JVal where
  | null
  | bool (b : Bool)
  | num (n : Int)
  | str (s : String)
  | arr (xs : List JVal)
  | obj (fields : List (String × JVal))

/-- Python `dict.get(k)`: first binding of the key in the association list
(Python dicts have unique keys, which the embedding mirrors by always reading
the first binding). -/
def dictGet (fields : List (String × JVal)) (k : String) : Option JVal :=
  match fields with
  | [] => none
  | (k', v) :: rest => if k' = k then some v else dictGet rest k

/-- Python `d[k] = v`: overwrite the binding if the key exists, else append. -/
def dictSet (fields : List (String × JVal)) (k : String) (v : JVal) :
    List (String × JVal) :=
  if (dictGet fields k).isSome then
    fields.map (fun kv => if kv.1 = k then (k, v) else kv)
  else
    fields ++ [(k, v)]

/-- Python truthiness of a value (`if alert_id`, `if ts`, `or` defaults). -/
def pyTruthy : JVal → Bool
  | JVal.null => false
  | JVal.bool b => b
  | JVal.num n => n != 0
  | JVal.str s => s != ""
  | JVal.arr xs => !xs.isEmpty
  | JVal.obj fs => !fs.isEmpty

/-- Python `str(v)` for the values the backend renders into ids and features.
Container renderings are abbreviated placeholders: no claim in this
development depends on the exact text Python produces for a list or dict. -/
def pyStr : JVal → String
  | JVal.null => "None"
  | JVal.bool b => if b then "True" else "False"
  | JVal.num n => toString n
  | JVal.str s => s
  | JVal.arr _ => "<list>"
  | JVal.obj _ => "<dict>"

/-- Does the character list start with the pattern? -/
def startsWithChars : List Char → List Char → Bool
  | [], _ => true
  | _ :: _, [] => false
  | p :: ps, c :: cs => p == c && startsWithChars ps cs

/-- Python `pat in s` substring test on character lists. -/
def containsSub (pat : List Char) : List Char → Bool
  | [] => startsWithChars pat []
  | c :: cs => startsWithChars pat (c :: cs) || containsSub pat cs

/-- Fuel-bounded worker for `replaceChars`; the fuel is the input length,
which bounds the number of characters consumed, and the structural recursion
keeps the definition kernel-reducible. -/
def replaceCharsAux (pat rep : List Char) : Nat → List Char → List Char
  | 0, s => s
  | _ + 1, [] => []
  | fuel + 1, c :: cs =>
    if pat ≠ [] ∧ startsWithChars pat (c :: cs) then
      rep ++ replaceCharsAux pat rep fuel (cs.drop (pat.length - 1))
    else
      c :: replaceCharsAux pat rep fuel cs

/-- Python `s.replace(pat, rep)`: replace every non-overlapping occurrence,
scanning left to right (the backend only calls this with non-empty patterns). -/
def replaceChars (pat rep s : List Char) : List Char :=
  replaceCharsAux pat rep s.length s

/-- Python `s.strip()`: drop leading and trailing whitespace characters. -/
def stripChars (cs : List Char) : List Char :=
  ((cs.dropWhile Char.isWhitespace).reverse.dropWhile Char.isWhitespace).reverse

/-- Decimal value of two digit characters, if both are digits. -/
def twoDigits (a b : Char) : Option Nat :=
  if a.isDigit && b.isDigit then
    some ((a.toNat - 48) * 10 + (b.toNat - 48))
  else
    none

/-- Decimal value of four digit characters, if all are digits. -/
def fourDigits (a b c d : Char) : Option Nat :=
  if a.isDigit && b.isDigit && c.isDigit && d.isDigit then
    some ((a.toNat - 48) * 1000 + (b.toNat - 48) * 100 + (c.toNat - 48) * 10 +
      (d.toNat - 48))
  else
    none

/-- Naive (no timezone conversion) datetime as produced by Python's
`datetime.fromisoformat`; the backend reads `.hour` and `.weekday()` directly
off the parsed value without converting to UTC first. -/
structure PyDateTime where
  year : Nat
  month : Nat
  day : Nat
  hour : Nat
  minute : Nat
  second : Nat
  microsecond : Nat
deriving Repr, DecidableEq

/-- Gregorian leap-year test. -/
def isLeapYear (y : Nat) : Bool :=
  (y % 4 == 0 && y % 100 != 0) || y % 400 == 0

/-- Number of days in a month of the proleptic Gregorian calendar. -/
def daysInMonth (y m : Nat) : Nat :=
  if m = 2 then (if isLeapYear y then 29 else 28)
  else if m = 4 ∨ m = 6 ∨ m = 9 ∨ m = 11 then 30
  else 31

/-- Days since the Unix epoch of a Gregorian date (civil-from-days inverse,
valid for the years `datetime` accepts). -/
def daysFromCivil (y m d : Int) : Int :=
  let y' := if m ≤ 2 then y - 1 else y
  let era := (if y' ≥ 0 then y' else y' - 399) / 400
  let yoe := y' - era * 400
  let mp := if m > 2 then m - 3 else m + 9
  let doy := (153 * mp + 2) / 5 + d - 1
  let doe := yoe * 365 + yoe / 4 - yoe / 100 + doy
  era * 146097 + doe - 719468

/-- Python `datetime.weekday()`: Monday = 0 … Sunday = 6 (1970-01-01 was a
Thursday, weekday 3). -/
def pyWeekday (dt : PyDateTime) : Nat :=
  ((daysFromCivil dt.year dt.month dt.day + 3) % 7).toNat

/-- Range-checked constructor mirroring the validation `datetime` performs. -/
def mkDateTime (y mo d h mi s us : Nat) : Option PyDateTime :=
  if 1 ≤ y ∧ y ≤ 9999 ∧ 1 ≤ mo ∧ mo ≤ 12 ∧ 1 ≤ d ∧ d ≤ daysInMonth y mo ∧
      h ≤ 23 ∧ mi ≤ 59 ∧ s ≤ 59 ∧ us ≤ 999999 then
    some ⟨y, mo, d, h, mi, s, us⟩
  else
    none

/-- Parse a fractional-seconds suffix of exactly three or six digits into
microseconds, returning the remaining characters (a conservative model of the
fractions every supported Python version accepts). -/
def parseFraction : List Char → Option (Nat × List Char)
  | a :: b :: c :: d :: e :: f :: rest =>
    if a.isDigit && b.isDigit && c.isDigit then
      if d.isDigit && e.isDigit && f.isDigit then
        some (((a.toNat - 48) * 100 + (b.toNat - 48) * 10 + (c.toNat - 48)) * 1000 +
          (d.toNat - 48) * 100 + (e.toNat - 48) * 10 + (f.toNat - 48), rest)
      else
        some (((a.toNat - 48) * 100 + (b.toNat - 48) * 10 + (c.toNat - 48)) * 1000,
          d :: e :: f :: rest)
    else
      none
  | a :: b :: c :: rest =>
    if a.isDigit && b.isDigit && c.isDigit then
      some (((a.toNat - 48) * 100 + (b.toNat - 48) * 10 + (c.toNat - 48)) * 1000, rest)
    else
      none
  | _ => none

/-- Validate a trailing UTC-offset suffix: empty, or `±HH:MM` in range. The
parsed offset is discarded because the backend never converts the datetime. -/
def validOffset : List Char → Bool
  | [] => true
  | sign :: h1 :: h2 :: ':' :: m1 :: m2 :: [] =>
    (sign == '+' || sign == '-') &&
      (match twoDigits h1 h2, twoDigits m1 m2 with
       | some h, some m => decide (h ≤ 23) && decide (m ≤ 59)
       | _, _ => false)
  | _ => false

/-- Model of `datetime.fromisoformat` restricted to the extended ISO-8601
forms (`YYYY-MM-DD[THH:MM:SS[.fff[fff]][±HH:MM]]`) that every supported
Python version accepts; strings outside this subset are treated as
unparsable, which in the source leads to the same current-time fallback. -/
def fromIsoChars : List Char → Option PyDateTime
  | y1 :: y2 :: y3 :: y4 :: '-' :: mo1 :: mo2 :: '-' :: d1 :: d2 :: rest =>
    match fourDigits y1 y2 y3 y4, twoDigits mo1 mo2, twoDigits d1 d2 with
    | some y, some mo, some d =>
      match rest with
      | [] => mkDateTime y mo d 0 0 0 0
      | 'T' :: h1 :: h2 :: ':' :: mi1 :: mi2 :: ':' :: s1 :: s2 :: rest2 =>
        match twoDigits h1 h2, twoDigits mi1 mi2, twoDigits s1 s2 with
        | some h, some mi, some s =>
          match rest2 with
          | '.' :: fracRest =>
            match parseFraction fracRest with
            | some (us, rest3) =>
              if validOffset rest3 then mkDateTime y mo d h mi s us else none
            | none => none
          | _ =>
            if validOffset rest2 then mkDateTime y mo d h mi s 0 else none
        | _, _, _ => none
      | _ => none
    | _, _, _ => none
  | _ => none

/-- The deterministic part of `_parse_ts` (features.py): normalise a `+0000`
suffix to `+00:00`, rewrite a trailing `Z`, then parse; `none` models every
path on which the source falls back to `datetime.now(timezone.utc)` (empty
string or `ValueError`). -/
def parse_ts_pure (ts : String) : Option PyDateTime :=
  if ts = "" then none
  else
    let cs1 := replaceChars "+0000".data "+00:00".data ts.data
    let cs2 :=
      if cs1.getLast? = some 'Z' then cs1.dropLast ++ "+00:00".data else cs1
    fromIsoChars cs2

/-- Full `_parse_ts`: parse the timestamp or fall back to the current time. -/
def parse_ts (ts : String) (now : PyDateTime) : PyDateTime :=
  (parse_ts_pure ts).getD now

/-! ## Feature extraction (src/backend/features.py) -/

/-- The 9-field feature vector produced by `extract_features`, in the pinned
order documented in features.py. -/
structure FeatureVector where
  agent_name : String
  srcuser : String
  decoder_name : String
  program_name : String
  rule_groups : String
  rule_level : Int
  hour_of_day : Nat
  day_of_week : Nat
  success : Nat
deriving Repr, DecidableEq

/-- Python `source.get(k) or` empty-dict default, as used for the nested
`agent`/`rule`/`data`/`decoder`/`predecoder` structures. A truthy non-dict
value makes the source raise on the subsequent `.get`; the embedding treats
it as an empty dict (no claim exercises that path). -/
def getObjOr (v : Option JVal) : List (String × JVal) :=
  match v with
  | some (JVal.obj fs) => fs
  | _ => []

/-- Python `str(d.get(k, dflt))` for a string default. -/
def pyStrGet (fields : List (String × JVal)) (k dflt : String) : String :=
  match dictGet fields k with
  | some v => pyStr v
  | none => dflt

/-- Python `int(v)` on the values `rule.level` takes; an unparsable string
(which raises in the source) is embedded as 0. -/
def pyInt : JVal → Int
  | JVal.num n => n
  | JVal.bool b => if b then 1 else 0
  | JVal.str s => (s.toInt?).getD 0
  | _ => 0

/-- The rule-groups string: a list is joined with semicolons, anything else is
rendered with `str` (features.py lines 59-63). -/
def groupsToStr (v : Option JVal) : String :=
  match v with
  | some (JVal.arr xs) =>
    String.intercalate ";" (xs.map fun x =>
      match x with
      | JVal.str s => s
      | other => pyStr other)
  | some other => pyStr other
  | none => String.intercalate ";" []

/-- Feature extraction from an already-unwrapped source dict, with the parsed
timestamp passed in (features.py lines 47-80). -/
def extractFromSource (source : List (String × JVal)) (dt : PyDateTime) :
    FeatureVector :=
  let agent := getObjOr (dictGet source "agent")
  let rule := getObjOr (dictGet source "rule")
  let data := getObjOr (dictGet source "data")
  let decoder := getObjOr (dictGet source "decoder")
  let predecoder := getObjOr (dictGet source "predecoder")
  let groups_str := groupsToStr (dictGet rule "groups")
  { agent_name := pyStrGet agent "name" ""
    srcuser := pyStrGet data "srcuser" ""
    decoder_name := pyStrGet decoder "name" ""
    program_name := pyStrGet predecoder "program_name" ""
    rule_groups := groups_str
    rule_level := pyInt ((dictGet rule "level").getD (JVal.num 0))
    hour_of_day := dt.hour
    day_of_week := pyWeekday dt
    success :=
      if containsSub "authentication_success".data groups_str.data then 1 else 0 }

/-- Python `alert.get("_source", alert)` (features.py line 45): when the
`_source` key is present its value is used as the record, otherwise the alert
itself. A non-dict `_source` value makes the source raise on the subsequent
`.get` calls; the embedding treats it as an empty dict. -/
def sourceOf (alert : List (String × JVal)) : List (String × JVal) :=
  match dictGet alert "_source" with
  | some (JVal.obj fs) => fs
  | some _ => []
  | none => alert

/-- The timestamp string read from the chosen source dict; a non-string value
(which raises in the source) is embedded as the empty string. -/
def alertTimestamp (source : List (String × JVal)) : String :=
  match dictGet source "timestamp" with
  | some (JVal.str s) => s
  | some _ => ""
  | none => ""

/-- Full `extract_features(alert)` with the current time as an explicit
parameter: it is consulted exactly when the timestamp is missing, empty or
unparsable, mirroring the `datetime.now(timezone.utc)` fallbacks. -/
def extract_features (alert : List (String × JVal)) (now : PyDateTime) :
    FeatureVector :=
  let source := sourceOf alert
  extractFromSource source (parse_ts (alertTimestamp source) now)

/-- Association-list rendering of the features dict built at features.py
lines 70-80, preserving the construction order of the keys. -/
def featureAssoc (f : FeatureVector) : List (String × JVal) :=
  [("agent_name", JVal.str f.agent_name),
   ("srcuser", JVal.str f.srcuser),
   ("decoder_name", JVal.str f.decoder_name),
   ("program_name", JVal.str f.program_name),
   ("rule_groups", JVal.str f.rule_groups),
   ("rule_level", JVal.num f.rule_level),
   ("hour_of_day", JVal.num f.hour_of_day),
   ("day_of_week", JVal.num f.day_of_week),
   ("success", JVal.num f.success)]

/-! ## Prediction engine (src/backend/model_wrapper.py) -/

/-- Observable state of a `WazuhMLModel` instance: the loaded pipeline (as an
abstract artifact identity, `none` when unloaded), the reported version, the
configured artifact path and the decision threshold (scores are embedded as
rationals). -/
structure EngineState where
  model : Option String
  version : String
  model_path : String
  threshold : Rat
deriving Repr, DecidableEq

/-- Python `os.path.basename` for the slash-separated paths the backend
builds. -/
def basename (p : String) : String :=
  (p.splitOn "/").getLastD ""

/-- `WazuhMLModel.load_model(path)` (model_wrapper.py lines 24-45): an
explicit `path` overwrites `model_path` before anything is checked; the file
system is abstracted by `fsExists`, and `loader` models `joblib.load`
(returning the loaded artifact identity or raising). Returns the updated
state and the Bool result. -/
def load_model (st : EngineState) (path : Option String)
    (fsExists : String → Bool) (loader : String → Except String String) :
    EngineState × Bool :=
  let st1 :=
    match path with
    | some p => { st with model_path := p }
    | none => st
  if fsExists st1.model_path then
    match loader st1.model_path with
    | Except.ok m =>
      ({ st1 with model := some m, version := basename st1.model_path }, true)
    | Except.error _ => (st1, false)
  else
    (st1, false)

/-- `WazuhMLModel.reload(path)` (model_wrapper.py lines 132-134) delegates to
`load_model`. -/
def reload (st : EngineState) (path : Option String)
    (fsExists : String → Bool) (loader : String → Except String String) :
    EngineState × Bool :=
  load_model st path fsExists loader

/-- Result dict of a `predict` call; `features` and `error` are `Option`s
because the corresponding keys are present only on some paths. -/
structure PredResult where
  label : String
  score : Rat
  version : String
  features : Option FeatureVector
  error : Option String
deriving Repr, DecidableEq

/-- `WazuhMLModel.predict(alert)` (model_wrapper.py lines 47-108). The body of
the try-block (feature extraction plus `predict_proba`) is abstracted by
`run`: `Except.ok (feats, proba)` is a successful inference, `Except.error e`
any exception raised inside the try. The outer `Except` is an exception
propagated to the caller: with no model loaded the source raises
`RuntimeError("Model not loaded")` before the try-block is entered. -/
def predict (st : EngineState) (run : Except String (FeatureVector × Rat)) :
    Except String PredResult :=
  match st.model with
  | none => Except.error "Model not loaded"
  | some _ =>
    match run with
    | Except.ok (feats, proba) =>
      Except.ok
        { label := if proba ≥ st.threshold then "malicious" else "benign"
          score := proba
          version := st.version
          features := some feats
          error := none }
    | Except.error e =>
      Except.ok
        { label := "unknown"
          score := 0
          version := st.version
          features := none
          error := some e }

/-- The pinned column order fed to the loaded pipeline by `predict`
(model_wrapper.py lines 74-84). -/
def feature_order : List String :=
  ["agent_name", "srcuser", "decoder_name", "program_name", "rule_groups",
   "rule_level", "hour_of_day", "day_of_week", "success"]

/-! ## Version store (src/backend/model_versioning.py) -/

/-- One entry of the versions.json metadata file. -/
structure ModelVersion where
  version_id : String
  filename : String
  path : String
  metrics : List (String × Rat)
  training_samples : Nat
  notes : String
  created_at : String
  is_production : Bool
  promoted_at : Option String
  promoted_until : Option String
deriving Repr, DecidableEq

/-- Durable state of the version store: the versions.json contents, the set
of artifact files under models/versions, and the contents of
models/current.joblib (identified by the source artifact path it was copied
from; `none` when absent). -/
structure StoreState where
  versions : List ModelVersion
  artifacts : List String
  current : Option String
deriving Repr, DecidableEq

/-- Empty store (fresh install: no metadata file, no artifacts). -/
def initStore : StoreState := { versions := [], artifacts := [], current := none }

/-- Number of versions flagged production. -/
def prodCount (vs : List ModelVersion) : Nat :=
  vs.countP (fun v => v.is_production)

/-- The demotion loop run by both `save_model_version` and `promote_version`:
every production version loses its flag and is stamped `promoted_until`. -/
def demoteAll (now : String) (vs : List ModelVersion) : List ModelVersion :=
  vs.map fun v =>
    if v.is_production then
      { v with is_production := false, promoted_until := some now }
    else v

/-- Mark the first version with the given id as production (`promote_version`
mutates the first match found by `next(...)`). -/
def promoteFirst (vid now : String) : List ModelVersion → List ModelVersion
  | [] => []
  | v :: rest =>
    if v.version_id = vid then
      { v with is_production := true, promoted_at := some now } :: rest
    else
      v :: promoteFirst vid now rest

/-- Lexicographic code-point comparison of character lists, the order Python
uses when sorting the `created_at` strings. -/
def leChars : List Char → List Char → Bool
  | [], _ => true
  | _ :: _, [] => false
  | a :: as, b :: bs => if a = b then leChars as bs else decide (a < b)

/-- Insert a version into a list kept sorted by `created_at` descending. -/
def insertDesc (x : ModelVersion) : List ModelVersion → List ModelVersion
  | [] => [x]
  | y :: ys =>
    if leChars y.created_at.data x.created_at.data then x :: y :: ys
    else y :: insertDesc x ys

/-- Sort versions by `created_at` descending (insertion sort; the claims
depend only on the multiset of entries, not on the exact stable order). -/
def sortVersionsDesc : List ModelVersion → List ModelVersion
  | [] => []
  | x :: xs => insertDesc x (sortVersionsDesc xs)

/-- `save_versions_metadata` (model_versioning.py lines 153-161): sort by
`created_at`, newest first, then write the file. -/
def save_versions_metadata (vs : List ModelVersion) : List ModelVersion :=
  sortVersionsDesc vs

/-- `promote_version(version_id)` (model_versioning.py lines 98-137). The
`swapOk` flag models whether the artifact swap (`shutil.copy2` plus
`os.replace`) succeeds; on a swap failure the exception propagates
(`Except.error`) before `save_versions_metadata` runs, so the durable state
is unchanged. Unknown ids and missing artifact files return `ok false`. -/
def promote_version (st : StoreState) (vid now : String) (swapOk : Bool) :
    StoreState × Except Unit Bool :=
  match st.versions.find? (fun v => v.version_id == vid) with
  | none => (st, Except.ok false)
  | some version =>
    if version.path ∈ st.artifacts then
      if swapOk then
        ({ versions := save_versions_metadata
             (promoteFirst vid now (demoteAll now st.versions)),
           artifacts := st.artifacts,
           current := some version.path }, Except.ok true)
      else
        (st, Except.error ())
    else
      (st, Except.ok false)

/-- Metadata entry built at model_versioning.py lines 74-84. Both the
strftime version id and the isoformat `created_at` are renderings of the same
instant, embedded as the single string `now`. -/
def newVersionMeta (now : String) (metrics : List (String × Rat))
    (training_samples : Nat) (notes : String) : ModelVersion :=
  { version_id := now
    filename := "model-" ++ now ++ ".joblib"
    path := "models/versions/model-" ++ now ++ ".joblib"
    metrics := metrics
    training_samples := training_samples
    notes := notes
    created_at := now
    is_production := true
    promoted_at := some now
    promoted_until := none }

/-- The versions.json contents persisted by `save_model_version` at line 90,
BEFORE `promote_version` is invoked: previous production demoted, new entry
appended with `is_production = true`, file sorted. -/
def saveMetadataStage (st : StoreState) (now : String)
    (metrics : List (String × Rat)) (training_samples : Nat) (notes : String) :
    List ModelVersion :=
  save_versions_metadata
    (demoteAll now st.versions ++ [newVersionMeta now metrics training_samples notes])

/-- Durable state after the first two steps of `save_model_version` (artifact
dumped at lines 60-61, metadata file rewritten at line 90), immediately
BEFORE the `promote_version` call at line 93 performs the artifact swap. -/
def saveStagedState (st : StoreState) (now : String)
    (metrics : List (String × Rat)) (training_samples : Nat) (notes : String) :
    StoreState :=
  { versions := saveMetadataStage st now metrics training_samples notes
    artifacts :=
      if (newVersionMeta now metrics training_samples notes).path ∈ st.artifacts
      then st.artifacts
      else (newVersionMeta now metrics training_samples notes).path :: st.artifacts
    current := st.current }

/-- `save_model_version` (model_versioning.py lines 34-95): dump the artifact,
demote the previous production entry, append the new metadata, persist the
metadata file (all captured by `saveStagedState`), then call
`promote_version` for the artifact swap. The swap failure (`swapOk = false`)
raises out of the call, after the metadata write. -/
def save_model_version (st : StoreState) (now : String)
    (metrics : List (String × Rat)) (training_samples : Nat) (notes : String)
    (swapOk : Bool) : StoreState × Except Unit ModelVersion :=
  match promote_version (saveStagedState st now metrics training_samples notes)
      now now swapOk with
  | (st3, Except.error e) => (st3, Except.error e)
  | (st3, Except.ok _) =>
    (st3, Except.ok (newVersionMeta now metrics training_samples notes))

/-- `delete_version(version_id)` (model_versioning.py lines 182-207): refuse
when the first matching entry is flagged production; otherwise remove the
artifact file and every metadata entry with that id, and rewrite the file. -/
def delete_version (st : StoreState) (vid : String) : StoreState × Bool :=
  match st.versions.find? (fun v => v.version_id == vid) with
  | none => (st, false)
  | some version =>
    if version.is_production then (st, false)
    else
      ({ versions := save_versions_metadata
           (st.versions.filter (fun v => !(v.version_id == vid))),
         artifacts := st.artifacts.filter (fun p => !(p == version.path)),
         current := st.current }, true)

/-- `get_production_version` (model_versioning.py lines 164-167). -/
def get_production_version (st : StoreState) : Option ModelVersion :=
  st.versions.find? (fun v => v.is_production)

/-! ## Trainer (src/backend/trainer.py) -/

/-- Fixed promotion margin (trainer.py line 26); model scores are embedded as
exact rationals standing in for the floating-point F1 values (the claims'
example scores are unaffected by the float rounding of the source). -/
def F1_IMPROVEMENT_THRESHOLD : Rat := mkRat 2 100

/-- The promotion decision of `train_and_maybe_promote` (trainer.py lines
228-266): `currentExists` is `os.path.exists("models/current.joblib")`;
`currentF1 = none` models the comparison raising (broken baseline), in which
case the new model is promoted anyway; otherwise promote exactly when the new
held-out F1 strictly exceeds the current model's F1 plus the margin. -/
def shouldPromote (currentExists : Bool) (currentF1 : Option Rat)
    (newF1 : Rat) : Bool :=
  if currentExists then
    match currentF1 with
    | some current_f1 => decide (newF1 > current_f1 + F1_IMPROVEMENT_THRESHOLD)
    | none => true
  else
    true

/-- A document of the MongoDB `models` collection as inserted by the
trainer's promotion path (trainer.py lines 273-282). -/
structure TrainerModelDoc where
  version : String
  path : String
  f1 : Rat
  is_production : Bool
  promoted_at : String
  training_samples : Nat
deriving Repr, DecidableEq

/-- `models_collection.insert_one(...)` with `is_production: True` (trainer.py
lines 275-282): the document is appended; no existing document is demoted. -/
def recordPromotedModel (models : List TrainerModelDoc)
    (doc : TrainerModelDoc) : List TrainerModelDoc :=
  models ++ [{ doc with is_production := true }]

/-- Outcome dict returned by `train_and_maybe_promote`. -/
structure TrainOutcome where
  promoted : Bool
  version : String
  message : String
deriving Repr, DecidableEq

/-- The promote-and-record tail of `train_and_maybe_promote` (trainer.py
lines 268-296), for an already-trained candidate `doc` whose held-out F1 is
`doc.f1`. -/
def trainPromotionStep (models : List TrainerModelDoc) (currentExists : Bool)
    (currentF1 : Option Rat) (doc : TrainerModelDoc) :
    List TrainerModelDoc × TrainOutcome :=
  if shouldPromote currentExists currentF1 doc.f1 then
    (recordPromotedModel models doc,
     { promoted := true, version := doc.version,
       message := "Model promoted to production" })
  else
    (models,
     { promoted := false, version := doc.version,
       message := "Model trained but not promoted" })

/-- Categorical columns the trainer selects for fitting (trainer.py lines
94-97): note `rule_description` and no `success`. -/
def categorical_features : List String :=
  ["agent_name", "srcuser", "decoder_name", "program_name", "rule_groups",
   "rule_description"]

/-- Numerical columns the trainer selects for fitting (trainer.py line 98). -/
def numerical_features : List String :=
  ["rule_level", "hour_of_day", "day_of_week"]

/-- The full column list `X = df[categorical_features + numerical_features]`
the trainer fits the pipeline on (trainer.py line 101, also re-selected for
the baseline comparison at lines 239-241). -/
def trainerColumns : List String :=
  categorical_features ++ numerical_features

/-! ## Ingestion (src/backend/db.py) -/

/-- The composite idempotency key of `compute_id` (db.py lines 89-96). The
SHA-1 hex digest of the source is embedded as the composite string itself: an
injective stand-in, since the claims depend only on the digest being a
deterministic function of the composite. -/
def compute_id_digest (alert : List (String × JVal)) : String :=
  let timestamp :=
    match dictGet alert "timestamp" with
    | some v => pyStr v
    | none => ""
  let agent_id :=
    match dictGet (getObjOr (dictGet alert "agent")) "id" with
    | some v => pyStr v
    | none => ""
  let rule_id :=
    match dictGet (getObjOr (dictGet alert "rule")) "id" with
    | some v => pyStr v
    | none => ""
  let full_log :=
    match dictGet alert "full_log" with
    | some v => (pyStr v).take 80
    | none => ""
  timestamp ++ "|" ++ agent_id ++ "|" ++ rule_id ++ "|" ++ full_log

/-- `compute_id(alert)` (db.py lines 78-96): the alert's declared id when it
is truthy and non-blank after stripping, else the digest of the composite
key. -/
def compute_id (alert : List (String × JVal)) : String :=
  match dictGet alert "id" with
  | some v =>
    if pyTruthy v && !(stripChars (pyStr v).data).isEmpty then pyStr v
    else compute_id_digest alert
  | none => compute_id_digest alert

/-- `normalize_timestamp(alert)` (db.py lines 99-131), as a pure update of
the alert dict. The `dateutil` parse outcome is passed in as `parsed`:
`some s` means the original timestamp parsed and normalised to the UTC
ISO-8601 string `s`, `none` that parsing raised; both fallback branches write
the current time `nowStr`. -/
def normalize_timestamp (alert : List (String × JVal)) (parsed : Option String)
    (nowStr : String) : List (String × JVal) :=
  let original := (dictGet alert "timestamp").getD (JVal.str "")
  let a1 := dictSet alert "timestamp_raw" original
  if pyTruthy original then
    match parsed with
    | some s => dictSet a1 "timestamp" (JVal.str s)
    | none => dictSet a1 "timestamp" (JVal.str nowStr)
  else
    dictSet a1 "timestamp" (JVal.str nowStr)

/-- The alerts collection, keyed by the computed `_id` (the unique index that
raises `DuplicateKeyError` on a repeated id). -/
def AlertDb := List (String × List (String × JVal))

/-- The document as stored by `insert_alert`: the normalised alert stamped
with its computed `_id` and the `ingested_at` time (db.py lines 142-150). -/
def storedAlertDoc (alert : List (String × JVal)) (parsed : Option String)
    (nowStr : String) : List (String × JVal) :=
  dictSet
    (dictSet (normalize_timestamp alert parsed nowStr) "_id"
      (JVal.str (compute_id (normalize_timestamp alert parsed nowStr))))
    "ingested_at" (JVal.str nowStr)

/-- `insert_alert(alert)` (db.py lines 133-161): normalise the timestamp,
compute the stable id, stamp `_id` and `ingested_at`, insert; a duplicate key
is reported as success. The store itself is assumed reachable (the generic
DB-error branch models connectivity loss, out of scope here). Returns the new
collection contents, the success flag and the message. -/
def insert_alert (db : AlertDb) (alert : List (String × JVal))
    (parsed : Option String) (nowStr : String) : AlertDb × Bool × String :=
  match db.find?
      (fun kv => kv.1 == compute_id (normalize_timestamp alert parsed nowStr)) with
  | some _ => (db, true, "Duplicate alert (ignored)")
  | none =>
    ((compute_id (normalize_timestamp alert parsed nowStr),
      storedAlertDoc alert parsed nowStr) :: db, true, "Inserted alert")

/-- Number of stored records carrying the given id. -/
def countKey (db : AlertDb) (id : String) : Nat :=
  db.countP (fun kv => kv.1 == id)

/-! ## Backfill and ingestion prediction persistence
(src/backend/backfill.py, src/backend/app.py) -/

/-- A batched prediction write. -/
structure BatchItem where
  id : String
  predicted_label : String
  predicted_score : Rat
  model_version : String
deriving Repr, DecidableEq

/-- Per-alert step of `backfill_predictions` (backfill.py lines 59-85):
`none` means the record is skipped and the error counter incremented — either
because `predict` raised (caught by the per-record `except`) or because the
result carries an "error" key; otherwise the prediction joins the write
batch. -/
def backfillRecord (st : EngineState) (alertId : String)
    (run : Except String (FeatureVector × Rat)) : Option BatchItem :=
  match predict st run with
  | Except.error _ => none
  | Except.ok pred =>
    if pred.error.isSome then none
    else
      some { id := alertId, predicted_label := pred.label,
             predicted_score := pred.score, model_version := pred.version }

/-- The prediction-persistence step of `receive_event` (app.py lines
378-396): only when a model is loaded and the result has no "error" key is
`insert_prediction` called; a raise inside the block is caught by the
surrounding try. -/
def receiveEventPrediction (st : EngineState) (alertId : String)
    (run : Except String (FeatureVector × Rat)) : Option BatchItem :=
  if st.model.isSome then
    match predict st run with
    | Except.error _ => none
    | Except.ok pred =>
      if pred.error.isNone then
        some { id := alertId, predicted_label := pred.label,
               predicted_score := pred.score, model_version := pred.version }
      else none
  else none

/-! ## Concrete fixtures used by counterexamples and witnesses -/

/-- A stored non-production version used to exercise `promote_version`. -/
def mvW1 : ModelVersion :=
  ⟨"v1", "model-v1.joblib", "models/versions/model-v1.joblib", [], 10, "",
   "v1", false, none, none⟩

/-- Store holding one non-production version whose artifact exists. -/
def stW1 : StoreState :=
  ⟨[mvW1], ["models/versions/model-v1.joblib"], none⟩

/-- Engine with a loaded model. -/
def stLoadedW : EngineState :=
  ⟨some "m0", "current.joblib", "models/current.joblib", mkRat 1 2⟩

/-- Engine in the unloaded state (`self.model is None`). -/
def stUnloadedW : EngineState :=
  ⟨none, "unknown", "models/current.joblib", mkRat 1 2⟩

/-- A concrete feature vector for inference fixtures. -/
def fvW : FeatureVector := ⟨"srv1", "root", "sshd", "sshd", "syslog", 5, 3, 0, 0⟩

/-- Candidate models as recorded by the trainer's promotion path. -/
def docW1 : TrainerModelDoc :=
  ⟨"authclf-1", "models/authclf-1.joblib", mkRat 9 10, false, "t1", 30⟩

/-- Second candidate model. -/
def docW2 : TrainerModelDoc :=
  ⟨"authclf-2", "models/authclf-2.joblib", mkRat 8 10, false, "t2", 40⟩

/-- Alert with no declared id and no timestamp: its computed id falls back to
the ingestion-time digest. -/
def alertNoIdW : List (String × JVal) :=
  [("agent", JVal.obj [("id", JVal.str "007")]),
   ("rule", JVal.obj [("id", JVal.str "5710")]),
   ("full_log", JVal.str "Failed password for root")]

/-- Alert carrying a declared non-empty id. -/
def alertWithIdW : List (String × JVal) :=
  [("id", JVal.str "a1"), ("full_log", JVal.str "Accepted password")]

/-- Alert carrying both a flat `agent` field and an `_source` envelope whose
`agent` field differs. -/
def alertBothW : List (String × JVal) :=
  [("agent", JVal.obj [("name", JVal.str "flat-agent")]),
   ("_source", JVal.obj [("agent", JVal.obj [("name", JVal.str "wrapped-agent")])])]

/-- The same flat record without the envelope. -/
def alertFlatOnlyW : List (String × JVal) :=
  [("agent", JVal.obj [("name", JVal.str "flat-agent")])]

/-- Flat alert with no timestamp field at all. -/
def alertNoTsW : List (String × JVal) :=
  [("agent", JVal.obj [("name", JVal.str "srv1")])]

/-- Flat alert with a parsable Wazuh-style timestamp. -/
def alertTsW : List (String × JVal) :=
  [("agent", JVal.obj [("name", JVal.str "srv1")]),
   ("timestamp", JVal.str "2025-09-23T17:48:19.409+0000")]

/-- Two distinct extraction instants (same day, different hour). -/
def nowA : PyDateTime := ⟨2025, 1, 6, 3, 0, 0, 0⟩

/-- Second extraction instant. -/
def nowB : PyDateTime := ⟨2025, 1, 6, 4, 0, 0, 0⟩

/-! ## Helper lemmas -/

theorem insertDesc_perm (x : ModelVersion) (l : List ModelVersion) :
    List.Perm (insertDesc x l) (x :: l) := by
  induction l with
  | nil => exact List.Perm.refl _
  | cons y ys ih =>
    rw [insertDesc]
    split
    · exact List.Perm.refl _
    · exact (ih.cons y).trans (List.Perm.swap x y ys)

theorem sortVersionsDesc_perm (l : List ModelVersion) :
    List.Perm (sortVersionsDesc l) l := by
  induction l with
  | nil => exact List.Perm.refl _
  | cons x xs ih =>
    exact (insertDesc_perm x (sortVersionsDesc xs)).trans (ih.cons x)

theorem prodCount_save_versions_metadata (vs : List ModelVersion) :
    prodCount (save_versions_metadata vs) = prodCount vs :=
  (sortVersionsDesc_perm vs).countP_eq _

theorem length_save_versions_metadata (vs : List ModelVersion) :
    (save_versions_metadata vs).length = vs.length :=
  (sortVersionsDesc_perm vs).length_eq

theorem prodCount_demoteAll (now : String) (vs : List ModelVersion) :
    prodCount (demoteAll now vs) = 0 := by
  simp only [prodCount, List.countP_eq_zero]
  intro v hv
  simp only [demoteAll, List.mem_map] at hv
  rcases hv with ⟨w, _, rfl⟩
  by_cases h : w.is_production <;> simp [h]

theorem prodCount_promoteFirst (vid now : String) (vs : List ModelVersion)
    (hall : prodCount vs = 0) (hmem : ∃ v ∈ vs, v.version_id = vid) :
    prodCount (promoteFirst vid now vs) = 1 := by
  induction vs with
  | nil => simp at hmem
  | cons v vs ih =>
    have hv : v.is_production = false := by
      have h1 := hall
      simp only [prodCount, List.countP_cons] at h1
      by_cases h : v.is_production = true
      · simp [h] at h1
      · simpa using h
    have hvs : prodCount vs = 0 := by
      have h1 := hall
      simp only [prodCount, List.countP_cons, hv] at h1
      simpa [prodCount] using h1
    by_cases h : v.version_id = vid
    · rw [promoteFirst, if_pos h]
      simp only [prodCount, List.countP_cons] at hvs ⊢
      simp [hvs]
    · have hmem' : ∃ w ∈ vs, w.version_id = vid := by
        rcases hmem with ⟨w, hw, hid⟩
        rcases List.mem_cons.mp hw with rfl | hw'
        · exact absurd hid h
        · exact ⟨w, hw', hid⟩
      have hrec := ih hvs hmem'
      simp [promoteFirst, h, prodCount, List.countP_cons, hv]
      simpa [prodCount] using hrec

theorem exists_version_id_demoteAll (now vid : String) (vs : List ModelVersion)
    (h : ∃ v ∈ vs, v.version_id = vid) :
    ∃ v ∈ demoteAll now vs, v.version_id = vid := by
  rcases h with ⟨w, hw, hid⟩
  refine ⟨_, List.mem_map_of_mem _ hw, ?_⟩
  by_cases hp : w.is_production <;> simp [hp, hid]

theorem promote_version_cases (st : StoreState) (vid now : String) (swapOk : Bool) :
    ((promote_version st vid now swapOk).2 = Except.ok true ∧
     ∃ version, st.versions.find? (fun v => v.version_id == vid) = some version ∧
       version.path ∈ st.artifacts ∧ swapOk = true ∧
       (promote_version st vid now swapOk).1 =
         ⟨save_versions_metadata (promoteFirst vid now (demoteAll now st.versions)),
          st.artifacts, some version.path⟩) ∨
    ((promote_version st vid now swapOk).2 ≠ Except.ok true ∧
     (promote_version st vid now swapOk).1 = st) := by
  unfold promote_version
  cases hf : st.versions.find? (fun v => v.version_id == vid) with
  | none => right; exact ⟨by simp, rfl⟩
  | some version =>
    by_cases hp : version.path ∈ st.artifacts
    · cases swapOk with
      | true =>
        left
        exact ⟨by simp [hp], version, rfl, hp, rfl, by simp [hp]⟩
      | false => right; exact ⟨by simp [hp], by simp [hp]⟩
    · right; exact ⟨by simp [hp], by simp [hp]⟩

theorem promote_ok_true_count (st : StoreState) (vid now : String) (swapOk : Bool)
    (h : (promote_version st vid now swapOk).2 = Except.ok true) :
    prodCount (promote_version st vid now swapOk).1.versions = 1 := by
  rcases promote_version_cases st vid now swapOk with
    ⟨_, version, hf, _, _, hstate⟩ | ⟨hne, _⟩
  · rw [hstate]
    show prodCount (save_versions_metadata
      (promoteFirst vid now (demoteAll now st.versions))) = 1
    rw [prodCount_save_versions_metadata]
    apply prodCount_promoteFirst
    · exact prodCount_demoteAll now st.versions
    · apply exists_version_id_demoteAll
      refine ⟨version, List.mem_of_find?_eq_some hf, ?_⟩
      have hid := List.find?_some hf
      simpa using hid
  · exact absurd h hne

theorem promote_version_frame (st : StoreState) (vid now : String) (swapOk : Bool)
    (h : (promote_version st vid now swapOk).2 ≠ Except.ok true) :
    (promote_version st vid now swapOk).1 = st := by
  rcases promote_version_cases st vid now swapOk with ⟨hok, _⟩ | ⟨_, hstate⟩
  · exact absurd hok h
  · exact hstate

theorem prodCount_promote_version (st : StoreState) (vid now : String)
    (swapOk : Bool) (h1 : prodCount st.versions = 1) :
    prodCount (promote_version st vid now swapOk).1.versions = 1 := by
  by_cases h : (promote_version st vid now swapOk).2 = Except.ok true
  · exact promote_ok_true_count st vid now swapOk h
  · rw [promote_version_frame st vid now swapOk h]
    exact h1

theorem save_model_version_fst (st : StoreState) (now : String)
    (metrics : List (String × Rat)) (ts : Nat) (notes : String) (swapOk : Bool) :
    (save_model_version st now metrics ts notes swapOk).1 =
      (promote_version (saveStagedState st now metrics ts notes) now now swapOk).1 := by
  unfold save_model_version
  cases hm : promote_version (saveStagedState st now metrics ts notes) now now swapOk with
  | mk a b => cases b <;> rfl

theorem prodCount_saveMetadataStage (st : StoreState) (now : String)
    (metrics : List (String × Rat)) (ts : Nat) (notes : String) :
    prodCount (saveMetadataStage st now metrics ts notes) = 1 := by
  unfold saveMetadataStage
  rw [prodCount_save_versions_metadata]
  simp only [prodCount, List.countP_append]
  rw [show (demoteAll now st.versions).countP (fun v => v.is_production) = 0 from
    prodCount_demoteAll now st.versions]
  simp [newVersionMeta]

theorem version_id_unique (vs : List ModelVersion) (vid : String) (w : ModelVersion)
    (hn : (vs.map (fun v => v.version_id)).Nodup)
    (hf : vs.find? (fun v => v.version_id == vid) = some w) :
    ∀ v ∈ vs, v.version_id = vid → v = w := by
  induction vs with
  | nil => simp at hf
  | cons x xs ih =>
    rw [List.map_cons, List.nodup_cons] at hn
    obtain ⟨hnx, hnxs⟩ := hn
    by_cases hx : x.version_id = vid
    · have hb : (x.version_id == vid) = true := by simpa using hx
      simp only [List.find?_cons, hb] at hf
      obtain rfl := Option.some.inj hf
      intro v hv hvid
      rcases List.mem_cons.mp hv with rfl | hv'
      · rfl
      · exfalso
        apply hnx
        have : v.version_id ∈ xs.map (fun v => v.version_id) :=
          List.mem_map_of_mem _ hv'
        rwa [hvid, ← hx] at this
    · have hb : (x.version_id == vid) = false := by simpa using hx
      simp only [List.find?_cons, hb] at hf
      intro v hv hvid
      rcases List.mem_cons.mp hv with rfl | hv'
      · exact absurd hvid hx
      · exact ih hnxs hf v hv' hvid

theorem delete_preserves_prodCount (st : StoreState) (vid : String)
    (hn : (st.versions.map (fun v => v.version_id)).Nodup) :
    prodCount (delete_version st vid).1.versions = prodCount st.versions := by
  unfold delete_version
  cases hf : st.versions.find? (fun v => v.version_id == vid) with
  | none => rfl
  | some version =>
    by_cases hp : version.is_production
    · simp [hp]
    · simp only [Bool.not_eq_true] at hp
      simp only [hp, Bool.false_eq_true, if_false]
      rw [prodCount_save_versions_metadata]
      unfold prodCount
      rw [List.countP_filter]
      apply List.countP_congr
      intro v hv
      by_cases hvid : v.version_id = vid
      · have hveq : v = version := version_id_unique st.versions vid version hn hf v hv hvid
        subst hveq
        simp [hp, hvid]
      · simp [hvid]

theorem length_saveMetadataStage (st : StoreState) (now : String)
    (metrics : List (String × Rat)) (ts : Nat) (notes : String) :
    (saveMetadataStage st now metrics ts notes).length = st.versions.length + 1 := by
  unfold saveMetadataStage
  rw [length_save_versions_metadata]
  simp [demoteAll]

/-- C1 (amended): after any successful Version Store save or promote, exactly
one recorded ModelVersion in versions.json has `is_production = true`; a
promote that does not succeed leaves the store unchanged, and delete (on a
store with distinct version ids) preserves the production count. The
trainer's promotion path, by contrast, appends `is_production = true`
documents to the MongoDB models collection without demoting earlier ones. -/
theorem C1_exactly_one_production_amended :
    (∀ (st : StoreState) (now : String) (metrics : List (String × Rat))
        (ts : Nat) (notes : String),
      prodCount (save_model_version st now metrics ts notes true).1.versions = 1) ∧
    (∀ (st : StoreState) (vid now : String) (swapOk : Bool),
      (promote_version st vid now swapOk).2 = Except.ok true →
      prodCount (promote_version st vid now swapOk).1.versions = 1) ∧
    (∀ (st : StoreState) (vid now : String) (swapOk : Bool),
      (promote_version st vid now swapOk).2 ≠ Except.ok true →
      (promote_version st vid now swapOk).1 = st) ∧
    (∀ (st : StoreState) (vid : String),
      (st.versions.map (fun v => v.version_id)).Nodup →
      prodCount (delete_version st vid).1.versions = prodCount st.versions) ∧
    (∀ (models : List TrainerModelDoc) (doc : TrainerModelDoc),
      (recordPromotedModel models doc).countP (fun d => d.is_production) =
        models.countP (fun d => d.is_production) + 1) := by
  refine ⟨?_, ?_, ?_, ?_, ?_⟩
  · intro st now metrics ts notes
    rw [save_model_version_fst]
    apply prodCount_promote_version
    exact prodCount_saveMetadataStage st now metrics ts notes
  · exact promote_ok_true_count
  · exact promote_version_frame
  · exact delete_preserves_prodCount
  · intro models doc
    simp [recordPromotedModel]

/-- C1 witness: promoting the stored version v1 leaves exactly one production
entry. -/
theorem C1_exactly_one_production_witness :
    prodCount (promote_version stW1 "v1" "t2" true).1.versions = 1 :=
  C1_exactly_one_production_amended.2.1 stW1 "v1" "t2" true (by decide)

/-- C1 counterexample: two runs of the trainer's promotion path leave two
documents flagged production in the models metadata store, not one. -/
theorem C1_exactly_one_production_counterexample :
    ((trainPromotionStep (trainPromotionStep [] false none docW1).1
        false none docW2).1).countP (fun d => d.is_production) = 2 ∧
    ¬((trainPromotionStep (trainPromotionStep [] false none docW1).1
        false none docW2).1).countP (fun d => d.is_production) = 1 := by
  constructor <;> decide

/-- C2 counterexample: a save whose artifact swap fails (the call raises,
`Except.error`) has already rewritten versions.json — the new entry is
recorded and flagged production — while current.joblib is unchanged. -/
theorem C2_metadata_before_swap_counterexample :
    (save_model_version initStore "t1" [] 0 "" false).2 = Except.error () ∧
    (save_model_version initStore "t1" [] 0 "" false).1.versions ≠
      initStore.versions ∧
    prodCount (save_model_version initStore "t1" [] 0 "" false).1.versions = 1 ∧
    (save_model_version initStore "t1" [] 0 "" false).1.current =
      initStore.current := by
  refine ⟨by decide, by decide, by decide, by decide⟩

/-- C2 (amended): for promote calls the claim holds — a failed swap changes
nothing, metadata included; but save persists the version metadata BEFORE the
artifact swap, so a save whose swap fails leaves the metadata file already
rewritten (one more entry, flags and timestamps updated) while the production
artifact alone is unchanged. -/
theorem C2_metadata_before_swap_amended :
    (∀ (st : StoreState) (vid now : String),
      (promote_version st vid now false).1 = st) ∧
    (∀ (st : StoreState) (now : String) (metrics : List (String × Rat))
        (ts : Nat) (notes : String),
      (save_model_version st now metrics ts notes false).1.current = st.current ∧
      (save_model_version st now metrics ts notes false).1.versions =
        saveMetadataStage st now metrics ts notes ∧
      (save_model_version st now metrics ts notes false).1.versions.length =
        st.versions.length + 1) := by
  constructor
  · intro st vid now
    rcases promote_version_cases st vid now false with
      ⟨_, _, _, _, hsw, _⟩ | ⟨_, hstate⟩
    · exact absurd hsw (by simp)
    · exact hstate
  · intro st now metrics ts notes
    have hfalse : ∀ (s : StoreState) (v n : String),
        (promote_version s v n false).1 = s := by
      intro s v n
      rcases promote_version_cases s v n false with
        ⟨_, _, _, _, hsw, _⟩ | ⟨_, hstate⟩
      · exact absurd hsw (by simp)
      · exact hstate
    rw [save_model_version_fst, hfalse]
    exact ⟨rfl, rfl, length_saveMetadataStage st now metrics ts notes⟩

/-- C3 (confirmed): the trainer promotes iff no production artifact exists,
or the baseline comparison raised, or the candidate's held-out F1 strictly
exceeds the baseline F1 plus the 0.02 margin; with baseline 0.80 a 0.81
candidate is rejected, a 0.83 candidate is promoted, and with no production
artifact every candidate is promoted. -/
theorem C3_promotion_decision_confirmed :
    (∀ (ce : Bool) (cf : Option Rat) (nf : Rat),
      shouldPromote ce cf nf = true ↔
        (ce = false ∨ cf = none ∨
          ∃ c, cf = some c ∧ nf > c + F1_IMPROVEMENT_THRESHOLD)) ∧
    shouldPromote true (some (mkRat 80 100)) (mkRat 81 100) = false ∧
    shouldPromote true (some (mkRat 80 100)) (mkRat 83 100) = true ∧
    (∀ (cf : Option Rat) (nf : Rat), shouldPromote false cf nf = true) ∧
    (∀ (models : List TrainerModelDoc) (ce : Bool) (cf : Option Rat)
        (doc : TrainerModelDoc),
      (trainPromotionStep models ce cf doc).2.promoted =
        shouldPromote ce cf doc.f1) := by
  refine ⟨?_, ?_, ?_, ?_, ?_⟩
  · intro ce cf nf
    cases ce with
    | false => simp [shouldPromote]
    | true =>
      cases cf with
      | none => simp [shouldPromote]
      | some c => simp [shouldPromote]
  · simp only [shouldPromote, F1_IMPROVEMENT_THRESHOLD, if_true,
      decide_eq_false_iff_not, not_lt]
    rw [Rat.mkRat_eq_div, Rat.mkRat_eq_div, Rat.mkRat_eq_div]
    norm_num
  · simp only [shouldPromote, F1_IMPROVEMENT_THRESHOLD, if_true,
      decide_eq_true_eq]
    rw [Rat.mkRat_eq_div, Rat.mkRat_eq_div, Rat.mkRat_eq_div]
    norm_num
  · intro cf nf
    simp [shouldPromote]
  · intro models ce cf doc
    by_cases h : shouldPromote ce cf doc.f1 <;> simp [trainPromotionStep, h]

/-- C4 counterexample: with no model loaded, `predict` raises
`RuntimeError("Model not loaded")` instead of returning an unknown/0.0
result, even though the inference environment is healthy. -/
theorem C4_predict_raises_counterexample :
    predict stUnloadedW (Except.ok (fvW, mkRat 9 10)) =
      Except.error "Model not loaded" := rfl

/-- C4 (amended): once a model is loaded, `predict` never raises — every
internal failure is converted into a returned result with label "unknown",
score 0.0 and an error descriptor; but in the unloaded state `predict` raises
instead of returning such a result. -/
theorem C4_predict_total_when_loaded_amended :
    ∀ (st : EngineState) (run : Except String (FeatureVector × Rat)),
      st.model.isSome = true →
      (∃ r, predict st run = Except.ok r) ∧
      (∀ e, run = Except.error e →
        predict st run =
          Except.ok ⟨"unknown", 0, st.version, none, some e⟩) := by
  intro st run h
  cases hm : st.model with
  | none => rw [hm] at h; simp at h
  | some m =>
    cases run with
    | ok fp =>
      obtain ⟨f, p⟩ := fp
      have hpred : predict st (Except.ok (f, p)) =
          Except.ok ⟨if p ≥ st.threshold then "malicious" else "benign",
            p, st.version, some f, none⟩ := by
        simp [predict, hm]
      constructor
      · exact ⟨_, hpred⟩
      · intro e he
        exact absurd he (by simp)
    | error e =>
      have hpred : predict st (Except.error e) =
          Except.ok ⟨"unknown", 0, st.version, none, some e⟩ := by
        simp [predict, hm]
      constructor
      · exact ⟨_, hpred⟩
      · intro e' he'
        obtain rfl := Except.error.inj he'
        exact hpred

/-- C4 witness: a loaded engine converts an inference exception into the
unknown/0.0 error result. -/
theorem C4_predict_total_when_loaded_witness :
    predict stLoadedW (Except.error "boom") =
      Except.ok ⟨"unknown", 0, "current.joblib", none, some "boom"⟩ :=
  (C4_predict_total_when_loaded_amended stLoadedW (Except.error "boom")
    rfl).2 "boom" rfl

/-- C5 (code bug): the column list the trainer fits on is NOT the 9-field
FeatureVector: it contains `rule_description` (which `extract_features` never
produces) and omits `success` (which it always produces), while the
prediction engine's pinned order does match the extractor exactly. -/
theorem C5_trainer_feature_columns_bug :
    ¬trainerColumns = feature_order ∧
    (∀ f : FeatureVector, (featureAssoc f).map Prod.fst = feature_order) ∧
    "rule_description" ∈ trainerColumns ∧
    ¬"rule_description" ∈ feature_order ∧
    "success" ∈ feature_order ∧
    ¬"success" ∈ trainerColumns := by
  refine ⟨by decide, fun f => rfl, by decide, by decide, by decide, by decide⟩

/-- C7 counterexample: a reload from a missing path fails but leaves the
engine's configured model path pointing at the new path, so the observable
state differs from the pre-call state. -/
theorem C7_reload_failure_counterexample :
    (load_model stLoadedW (some "models/other.joblib") (fun _ => false)
      (fun _ => Except.error "boom")).2 = false ∧
    ¬(load_model stLoadedW (some "models/other.joblib") (fun _ => false)
      (fun _ => Except.error "boom")).1 = stLoadedW ∧
    (load_model stLoadedW (some "models/other.joblib") (fun _ => false)
      (fun _ => Except.error "boom")).1.model_path = "models/other.joblib" ∧
    stLoadedW.model_path = "models/current.joblib" := by
  refine ⟨by decide, by decide, by decide, rfl⟩

/-- C7 (amended): a failed reload leaves the loaded model, its version and
the threshold unchanged (the previously loaded model stays active), but the
configured model path is overwritten with the path argument when one is
given, even on failure. -/
theorem C7_reload_failure_amended :
    ∀ (st : EngineState) (path : Option String) (fsExists : String → Bool)
      (loader : String → Except String String),
      (load_model st path fsExists loader).2 = false →
      ((load_model st path fsExists loader).1.model = st.model ∧
       (load_model st path fsExists loader).1.version = st.version ∧
       (load_model st path fsExists loader).1.threshold = st.threshold ∧
       (load_model st path fsExists loader).1.model_path =
         (match path with | some p => p | none => st.model_path) ∧
       reload st path fsExists loader = load_model st path fsExists loader) := by
  intro st path fs loader
  cases path with
  | none =>
    by_cases hfs : fs st.model_path
    · cases hl : loader st.model_path with
      | ok m =>
        intro h
        exfalso
        simp [load_model, hfs, hl] at h
      | error e =>
        intro h
        refine ⟨?_, ?_, ?_, ?_, rfl⟩ <;> simp [load_model, hfs, hl]
    · intro h
      refine ⟨?_, ?_, ?_, ?_, rfl⟩ <;> simp [load_model, hfs]
  | some p =>
    by_cases hfs : fs p
    · cases hl : loader p with
      | ok m =>
        intro h
        exfalso
        simp [load_model, hfs, hl] at h
      | error e =>
        intro h
        refine ⟨?_, ?_, ?_, ?_, rfl⟩ <;> simp [load_model, hfs, hl]
    · intro h
      refine ⟨?_, ?_, ?_, ?_, rfl⟩ <;> simp [load_model, hfs]

/-- C7 witness: a failed reload to a missing path keeps the loaded model and
version while updating the configured path. -/
theorem C7_reload_failure_witness :
    (load_model stLoadedW (some "models/other.joblib") (fun _ => false)
      (fun _ => Except.error "boom")).1.model = stLoadedW.model ∧
    (load_model stLoadedW (some "models/other.joblib") (fun _ => false)
      (fun _ => Except.error "boom")).1.version = stLoadedW.version ∧
    (load_model stLoadedW (some "models/other.joblib") (fun _ => false)
      (fun _ => Except.error "boom")).1.threshold = stLoadedW.threshold ∧
    (load_model stLoadedW (some "models/other.joblib") (fun _ => false)
      (fun _ => Except.error "boom")).1.model_path = "models/other.joblib" ∧
    reload stLoadedW (some "models/other.joblib") (fun _ => false)
      (fun _ => Except.error "boom") =
      load_model stLoadedW (some "models/other.joblib") (fun _ => false)
      (fun _ => Except.error "boom") :=
  C7_reload_failure_amended stLoadedW (some "models/other.joblib")
    (fun _ => false) (fun _ => Except.error "boom") (by decide)

/-- C8 counterexample: when both a flat `agent` field and an `_source`
envelope are present, `extract_features` reads the envelope's value, not the
flat one. -/
theorem C8_source_preference_counterexample :
    (extract_features alertBothW nowA).agent_name = "wrapped-agent" ∧
    (extract_features alertFlatOnlyW nowA).agent_name = "flat-agent" ∧
    ¬(extract_features alertBothW nowA).agent_name = "flat-agent" := by
  refine ⟨by decide, by decide, by decide⟩

/-- C8 (amended): `extract_features` prefers the `_source` envelope — when
`_source` is present (as an object) every field is read from it and the flat
fields are ignored; the flat record is used only when `_source` is absent. -/
theorem C8_source_preference_amended :
    ∀ (alert fields : List (String × JVal)) (now : PyDateTime),
      (dictGet alert "_source" = some (JVal.obj fields) →
        extract_features alert now =
          extractFromSource fields (parse_ts (alertTimestamp fields) now)) ∧
      (dictGet alert "_source" = none →
        extract_features alert now =
          extractFromSource alert (parse_ts (alertTimestamp alert) now)) := by
  intro alert fields now
  constructor
  · intro h
    unfold extract_features sourceOf
    rw [h]
  · intro h
    unfold extract_features sourceOf
    rw [h]

/-- C8 witness: on the both-shapes alert the extraction equals extraction
from the envelope's contents. -/
theorem C8_source_preference_witness :
    extract_features alertBothW nowA =
      extractFromSource [("agent", JVal.obj [("name", JVal.str "wrapped-agent")])]
        (parse_ts (alertTimestamp
          [("agent", JVal.obj [("name", JVal.str "wrapped-agent")])]) nowA) :=
  (C8_source_preference_amended alertBothW
    [("agent", JVal.obj [("name", JVal.str "wrapped-agent")])] nowA).1 rfl

/-- C9 counterexample: extraction is not a function of the alert alone — on
an alert with no timestamp the hour-of-day feature comes from the extraction
instant, so two extractions of the identical input differ. -/
theorem C9_determinism_counterexample :
    ¬extract_features alertNoTsW nowA = extract_features alertNoTsW nowB := by
  decide

/-- C9 (amended): extraction is deterministic for every alert whose
timestamp parses — the result does not depend on the extraction instant —
and a flat record and its `_source`-wrapped form yield the same
FeatureVector; but when the timestamp is missing or unparsable the time
features come from the extraction instant and can differ between runs. -/
theorem C9_determinism_amended :
    ∀ (alert : List (String × JVal)) (now1 now2 : PyDateTime),
      ((parse_ts_pure (alertTimestamp (sourceOf alert))).isSome = true →
        extract_features alert now1 = extract_features alert now2) ∧
      (∀ fields : List (String × JVal),
        dictGet fields "_source" = none →
        extract_features [("_source", JVal.obj fields)] now1 =
          extract_features fields now1) := by
  intro alert now1 now2
  constructor
  · intro h
    unfold extract_features parse_ts
    cases hp : parse_ts_pure (alertTimestamp (sourceOf alert)) with
    | none => rw [hp] at h; simp at h
    | some dt => simp only [hp, Option.getD_some]
  · intro fields h
    unfold extract_features
    have hs : sourceOf [("_source", JVal.obj fields)] = fields := rfl
    have hs2 : sourceOf fields = fields := by
      unfold sourceOf
      rw [h]
    rw [hs, hs2]

/-- C9 witness: with a parsable Wazuh timestamp the extraction is identical
at two different instants. -/
theorem C9_determinism_witness :
    extract_features alertTsW nowA = extract_features alertTsW nowB :=
  (C9_determinism_amended alertTsW nowA nowB).1 (by decide)

/-- C10 (confirmed): for every returned prediction the "error" key is present
iff the inference failed — success results carry label/score/version/features
and no "error" key, failure results carry label "unknown", score 0.0 and the
"error" key — and both the backfill loop and the ingestion path persist a
prediction exactly when the "error" key is absent. -/
theorem C10_error_key_discriminator_confirmed :
    ∀ (st : EngineState) (alertId : String)
      (run : Except String (FeatureVector × Rat)),
      st.model.isSome = true →
      ∃ r, predict st run = Except.ok r ∧
        ((r.error = none) ↔ ∃ fp, run = Except.ok fp) ∧
        (r.error = none → r.features.isSome = true ∧
          (r.label = "malicious" ∨ r.label = "benign")) ∧
        (∀ e, r.error = some e → r.label = "unknown" ∧ r.score = 0 ∧
          r.features = none) ∧
        ((backfillRecord st alertId run).isSome = true ↔ r.error = none) ∧
        ((receiveEventPrediction st alertId run).isSome = true ↔ r.error = none) ∧
        backfillRecord st alertId run = receiveEventPrediction st alertId run := by
  intro st alertId run h
  cases hm : st.model with
  | none => rw [hm] at h; simp at h
  | some m =>
    cases run with
    | ok fp =>
      obtain ⟨f, p⟩ := fp
      have hpred : predict st (Except.ok (f, p)) =
          Except.ok ⟨if p ≥ st.threshold then "malicious" else "benign",
            p, st.version, some f, none⟩ := by
        simp [predict, hm]
      refine ⟨_, hpred, ?_, ?_, ?_, ?_, ?_, ?_⟩
      · simp
      · intro _
        constructor
        · simp
        · by_cases hth : p ≥ st.threshold <;> simp [hth]
      · intro e he
        simp at he
      · simp [backfillRecord, hpred]
      · simp [receiveEventPrediction, hpred, hm]
      · simp [backfillRecord, receiveEventPrediction, hpred, hm]
    | error e =>
      have hpred : predict st (Except.error e) =
          Except.ok ⟨"unknown", 0, st.version, none, some e⟩ := by
        simp [predict, hm]
      refine ⟨_, hpred, ?_, ?_, ?_, ?_, ?_, ?_⟩
      · simp
      · intro hc
        simp at hc
      · intro e' he'
        simp at he'
        subst he'
        exact ⟨rfl, rfl, rfl⟩
      · simp [backfillRecord, hpred]
      · simp [receiveEventPrediction, hpred, hm]
      · simp [backfillRecord, receiveEventPrediction, hpred, hm]

/-- C10 witness: a successful inference on a loaded engine is persisted by
the backfill step. -/
theorem C10_error_key_discriminator_witness :
    (backfillRecord stLoadedW "a1" (Except.ok (fvW, mkRat 9 10))).isSome = true := by
  obtain ⟨r, hok, hiff, _, _, hbf, _⟩ :=
    C10_error_key_discriminator_confirmed stLoadedW "a1"
      (Except.ok (fvW, mkRat 9 10)) rfl
  exact hbf.mpr (hiff.mpr ⟨(fvW, mkRat 9 10), rfl⟩)

theorem dictGet_cons (a : String) (b : JVal) (rest : List (String × JVal))
    (k : String) :
    dictGet ((a, b) :: rest) k = if a = k then some b else dictGet rest k := rfl

theorem dictGet_map_set_ne (fields : List (String × JVal)) (k k' : String)
    (v : JVal) (h : ¬k = k') :
    dictGet (fields.map (fun kv => if kv.1 = k then (k, v) else kv)) k' =
      dictGet fields k' := by
  induction fields with
  | nil => rfl
  | cons kv rest ih =>
    obtain ⟨k0, v0⟩ := kv
    show dictGet ((if k0 = k then (k, v) else (k0, v0)) ::
      rest.map (fun kv => if kv.1 = k then (k, v) else kv)) k' =
      dictGet ((k0, v0) :: rest) k'
    by_cases hk : k0 = k
    · rw [if_pos hk, dictGet_cons, dictGet_cons, if_neg h,
        if_neg (by rw [hk]; exact h)]
      exact ih
    · rw [if_neg hk, dictGet_cons, dictGet_cons]
      by_cases hk' : k0 = k'
      · rw [if_pos hk', if_pos hk']
      · rw [if_neg hk', if_neg hk']
        exact ih

theorem dictGet_append_single_ne (fields : List (String × JVal)) (k k' : String)
    (v : JVal) (h : ¬k = k') :
    dictGet (fields ++ [(k, v)]) k' = dictGet fields k' := by
  induction fields with
  | nil =>
    show dictGet [(k, v)] k' = none
    rw [dictGet_cons, if_neg h]
    rfl
  | cons kv rest ih =>
    obtain ⟨k0, v0⟩ := kv
    rw [List.cons_append, dictGet_cons, dictGet_cons]
    by_cases hk' : k0 = k'
    · rw [if_pos hk', if_pos hk']
    · rw [if_neg hk', if_neg hk']
      exact ih

theorem dictGet_dictSet_ne (fields : List (String × JVal)) (k k' : String)
    (v : JVal) (h : ¬k = k') :
    dictGet (dictSet fields k v) k' = dictGet fields k' := by
  unfold dictSet
  by_cases hs : (dictGet fields k).isSome
  · rw [if_pos hs]
    exact dictGet_map_set_ne fields k k' v h
  · rw [if_neg hs]
    exact dictGet_append_single_ne fields k k' v h

theorem dictGet_map_set_self (fields : List (String × JVal)) (k : String)
    (v : JVal) (hs : (dictGet fields k).isSome) :
    dictGet (fields.map (fun kv => if kv.1 = k then (k, v) else kv)) k =
      some v := by
  induction fields with
  | nil => simp [dictGet] at hs
  | cons kv rest ih =>
    obtain ⟨k0, v0⟩ := kv
    show dictGet ((if k0 = k then (k, v) else (k0, v0)) ::
      rest.map (fun kv => if kv.1 = k then (k, v) else kv)) k = some v
    by_cases hk : k0 = k
    · rw [if_pos hk, dictGet_cons, if_pos rfl]
    · rw [if_neg hk, dictGet_cons, if_neg hk]
      apply ih
      rw [dictGet_cons, if_neg hk] at hs
      exact hs

theorem dictGet_append_single_self (fields : List (String × JVal)) (k : String)
    (v : JVal) (hs : ¬(dictGet fields k).isSome) :
    dictGet (fields ++ [(k, v)]) k = some v := by
  induction fields with
  | nil =>
    show dictGet [(k, v)] k = some v
    rw [dictGet_cons, if_pos rfl]
  | cons kv rest ih =>
    obtain ⟨k0, v0⟩ := kv
    rw [List.cons_append, dictGet_cons]
    by_cases hk : k0 = k
    · exfalso
      apply hs
      rw [dictGet_cons, if_pos hk]
      rfl
    · rw [if_neg hk]
      apply ih
      intro hc
      apply hs
      rw [dictGet_cons, if_neg hk]
      exact hc

theorem dictGet_dictSet_self (fields : List (String × JVal)) (k : String)
    (v : JVal) : dictGet (dictSet fields k v) k = some v := by
  unfold dictSet
  by_cases hs : (dictGet fields k).isSome
  · rw [if_pos hs]
    exact dictGet_map_set_self fields k v hs
  · rw [if_neg hs]
    exact dictGet_append_single_self fields k v hs

theorem normalize_timestamp_get_ne (alert : List (String × JVal))
    (p : Option String) (n k : String) (hk1 : ¬k = "timestamp_raw")
    (hk2 : ¬k = "timestamp") :
    dictGet (normalize_timestamp alert p n) k = dictGet alert k := by
  unfold normalize_timestamp
  by_cases ho : pyTruthy ((dictGet alert "timestamp").getD (JVal.str "")) = true
  · rw [if_pos ho]
    cases p with
    | some s =>
      rw [dictGet_dictSet_ne _ _ _ _ (fun he => hk2 he.symm),
          dictGet_dictSet_ne _ _ _ _ (fun he => hk1 he.symm)]
    | none =>
      rw [dictGet_dictSet_ne _ _ _ _ (fun he => hk2 he.symm),
          dictGet_dictSet_ne _ _ _ _ (fun he => hk1 he.symm)]
  · rw [if_neg ho]
    rw [dictGet_dictSet_ne _ _ _ _ (fun he => hk2 he.symm),
        dictGet_dictSet_ne _ _ _ _ (fun he => hk1 he.symm)]

theorem insert_alert_found (db : AlertDb) (a : List (String × JVal))
    (p : Option String) (n : String) (x : String × List (String × JVal))
    (hf : db.find?
      (fun kv => kv.1 == compute_id (normalize_timestamp a p n)) = some x) :
    insert_alert db a p n = (db, true, "Duplicate alert (ignored)") := by
  unfold insert_alert
  rw [hf]

theorem insert_alert_fresh (db : AlertDb) (a : List (String × JVal))
    (p : Option String) (n : String)
    (hf : db.find?
      (fun kv => kv.1 == compute_id (normalize_timestamp a p n)) = none) :
    insert_alert db a p n =
      ((compute_id (normalize_timestamp a p n), storedAlertDoc a p n) :: db,
       true, "Inserted alert") := by
  unfold insert_alert
  rw [hf]

theorem insert_alert_ok (db : AlertDb) (a : List (String × JVal))
    (p : Option String) (n : String) : (insert_alert db a p n).2.1 = true := by
  cases hf : db.find?
      (fun kv => kv.1 == compute_id (normalize_timestamp a p n)) with
  | some x => rw [insert_alert_found db a p n x hf]
  | none => rw [insert_alert_fresh db a p n hf]

theorem insert_alert_dup (db : AlertDb) (alert1 alert2 : List (String × JVal))
    (p1 p2 : Option String) (now1 now2 : String)
    (hsame : compute_id (normalize_timestamp alert2 p2 now2) =
             compute_id (normalize_timestamp alert1 p1 now1)) :
    (insert_alert (insert_alert db alert1 p1 now1).1 alert2 p2 now2).1 =
      (insert_alert db alert1 p1 now1).1 := by
  cases hf : db.find?
      (fun kv => kv.1 == compute_id (normalize_timestamp alert1 p1 now1)) with
  | some x =>
    rw [insert_alert_found db alert1 p1 now1 x hf]
    rw [insert_alert_found db alert2 p2 now2 x (by rw [hsame]; exact hf)]
  | none =>
    rw [insert_alert_fresh db alert1 p1 now1 hf]
    have hf2 : ((compute_id (normalize_timestamp alert1 p1 now1),
        storedAlertDoc alert1 p1 now1) :: db).find?
        (fun kv => kv.1 == compute_id (normalize_timestamp alert2 p2 now2)) =
        some (compute_id (normalize_timestamp alert1 p1 now1),
          storedAlertDoc alert1 p1 now1) := by
      rw [hsame, List.find?_cons]
      simp
    rw [insert_alert_found _ alert2 p2 now2 _ hf2]

theorem insert_alert_countKey_fresh (db : AlertDb) (a : List (String × JVal))
    (p : Option String) (n : String)
    (hfresh : db.find?
      (fun kv => kv.1 == compute_id (normalize_timestamp a p n)) = none) :
    countKey (insert_alert db a p n).1
      (compute_id (normalize_timestamp a p n)) = 1 := by
  rw [insert_alert_fresh db a p n hfresh]
  unfold countKey
  rw [List.countP_cons]
  have h0 : db.countP
      (fun kv => kv.1 == compute_id (normalize_timestamp a p n)) = 0 := by
    rw [List.countP_eq_zero]
    intro kv hkv
    have hne := List.find?_eq_none.mp hfresh kv hkv
    simpa using hne
  simp [h0]

set_option maxRecDepth 8000 in
/-- C6 counterexample: an alert with no declared id and no timestamp gets an
id built from the ingestion-time fallback timestamp, so ingesting the
identical raw alert at two different instants stores two records. -/
theorem C6_idempotent_ingest_counterexample :
    ((insert_alert (insert_alert [] alertNoIdW none "2025-01-01T00:00:00Z").1
        alertNoIdW none "2025-01-01T00:00:01Z").1).length = 2 ∧
    ¬((insert_alert (insert_alert [] alertNoIdW none "2025-01-01T00:00:00Z").1
        alertNoIdW none "2025-01-01T00:00:01Z").1).length = 1 := by
  constructor <;> decide

/-- C6 (amended): ingestion is idempotent whenever the computed id is
actually deterministic — for every alert carrying a truthy, non-blank
declared id, and for every alert whose timestamp is present, non-empty and
normalises to the same string on both calls; re-inserting then leaves the
store unchanged and reports success. But an alert with no declared id and no
(or unparsable) timestamp is keyed on the ingestion-time fallback, so
re-ingestion at a different instant stores a second record. -/
theorem C6_idempotent_ingest_amended :
    (∀ (db : AlertDb) (alert : List (String × JVal)) (p1 p2 : Option String)
        (now1 now2 : String) (v : JVal),
      dictGet alert "id" = some v →
      pyTruthy v = true →
      (stripChars (pyStr v).data).isEmpty = false →
      db.find? (fun kv => kv.1 == pyStr v) = none →
      ((insert_alert db alert p1 now1).2.1 = true ∧
       (insert_alert (insert_alert db alert p1 now1).1 alert p2 now2).2.1 =
         true ∧
       (insert_alert (insert_alert db alert p1 now1).1 alert p2 now2).1 =
         (insert_alert db alert p1 now1).1 ∧
       countKey (insert_alert db alert p1 now1).1 (pyStr v) = 1)) ∧
    (∀ (db : AlertDb) (alert : List (String × JVal)) (s now1 now2 ts : String),
      dictGet alert "timestamp" = some (JVal.str ts) →
      ¬ts = "" →
      ((insert_alert (insert_alert db alert (some s) now1).1 alert (some s)
          now2).2.1 = true ∧
       (insert_alert (insert_alert db alert (some s) now1).1 alert (some s)
          now2).1 = (insert_alert db alert (some s) now1).1)) := by
  constructor
  · intro db alert p1 p2 now1 now2 v hid htr hstrip hfresh
    have hcid : ∀ (p : Option String) (n : String),
        compute_id (normalize_timestamp alert p n) = pyStr v := by
      intro p n
      have hg : dictGet (normalize_timestamp alert p n) "id" = some v := by
        rw [normalize_timestamp_get_ne _ _ _ _ (by decide) (by decide)]
        exact hid
      unfold compute_id
      rw [hg]
      show (if (pyTruthy v && !(stripChars (pyStr v).data).isEmpty) = true
        then pyStr v
        else compute_id_digest (normalize_timestamp alert p n)) = pyStr v
      rw [if_pos (show (pyTruthy v &&
        !(stripChars (pyStr v).data).isEmpty) = true by rw [htr, hstrip]; rfl)]
    have hfresh1 : db.find?
        (fun kv => kv.1 == compute_id (normalize_timestamp alert p1 now1)) =
        none := by
      rw [hcid p1 now1]
      exact hfresh
    refine ⟨insert_alert_ok db alert p1 now1, insert_alert_ok _ alert p2 now2,
      insert_alert_dup db alert alert p1 p2 now1 now2 (by rw [hcid, hcid]), ?_⟩
    have hc := insert_alert_countKey_fresh db alert p1 now1 hfresh1
    rwa [hcid p1 now1] at hc
  · intro db alert s now1 now2 ts hts hne
    have ho : pyTruthy ((dictGet alert "timestamp").getD (JVal.str "")) =
        true := by
      rw [hts]
      show (ts != "") = true
      exact bne_iff_ne.mpr hne
    have hnorm : normalize_timestamp alert (some s) now2 =
        normalize_timestamp alert (some s) now1 := by
      unfold normalize_timestamp
      rw [if_pos ho, if_pos ho]
    exact ⟨insert_alert_ok _ alert (some s) now2,
      insert_alert_dup db alert alert (some s) (some s) now1 now2
        (by rw [hnorm])⟩

/-- C6 witness: an alert with declared id "a1" inserts once and the second
ingestion is a duplicate-success no-op leaving one record. -/
theorem C6_idempotent_ingest_witness :
    (insert_alert [] alertWithIdW none "t1").2.1 = true ∧
    (insert_alert (insert_alert [] alertWithIdW none "t1").1 alertWithIdW
      none "t2").2.1 = true ∧
    (insert_alert (insert_alert [] alertWithIdW none "t1").1 alertWithIdW
      none "t2").1 = (insert_alert [] alertWithIdW none "t1").1 ∧
    countKey (insert_alert [] alertWithIdW none "t1").1 "a1" = 1 :=
  C6_idempotent_ingest_amended.1 [] alertWithIdW none none "t1" "t2"
    (JVal.str "a1") rfl rfl (by decide) rfl
